import Mathlib

/-
Verification of the Goal-Support repository (src/backend), a controlled
experiment platform that renders a fixed content plan under manipulated
expression conditions. This file is a shallow embedding of:
  - src/backend/llm.py   (content planner, verbalizer loop, deviation detectors)
  - src/backend/repo.py  (condition sequencer: get_current_condition,
                          get_within_total, within_is_complete, advance_condition)
  - src/backend/app.py   (_resolve_directiveness, start_session within-subject order)
Python dynamic values are modelled by the JSON-like type JVal; machine calls to
the generative backend are modelled by an arbitrary function parameter; Python
exceptions are modelled by Except; database rows are modelled by plain records.
-/

-- ===================================================================
-- Condition enums (src/backend/models.py, Directiveness / ChoiceFraming)
-- ===================================================================

inductive Directiveness where
  | HIGH
  | LOW
deriving DecidableEq, Repr

inductive ChoiceFraming where
  | PRESENT
  | ABSENT
deriving DecidableEq, Repr

/-- Enum value string, as in Python `Directiveness.HIGH.value == "HIGH"`. -/
def Directiveness.value : Directiveness → String
  | .HIGH => "HIGH"
  | .LOW => "LOW"

def ChoiceFraming.value : ChoiceFraming → String
  | .PRESENT => "PRESENT"
  | .ABSENT => "ABSENT"

/-- Enum constructor by value, as in Python `Directiveness(s)`; `none` models the
ValueError raised on an unrecognized value. -/
def Directiveness.ofString (s : String) : Option Directiveness :=
  if s == "HIGH" then some .HIGH else if s == "LOW" then some .LOW else none

def ChoiceFraming.ofString (s : String) : Option ChoiceFraming :=
  if s == "PRESENT" then some .PRESENT else if s == "ABSENT" then some .ABSENT else none

-- ===================================================================
-- JSON-like Python values and the Python primitives the code uses
-- ===================================================================

/-- A JSON-like value as produced by Python json.loads: None, bool, int, str,
list, dict (association list; json.loads yields unique keys). Float numbers are
outside the model; none of the verified code paths need them. -/
inductive JVal where
  | jnull
  | jbool (b : Bool)
  | jnum (n : Int)
  | jstr (s : String)
  | jarr (xs : List JVal)
  | jobj (fields : List (String × JVal))

/-- Python truthiness of a value. -/
def truthy : JVal → Bool
  | .jnull => false
  | .jbool b => b
  | .jnum n => n != 0
  | .jstr s => !s.data.isEmpty
  | .jarr xs => !xs.isEmpty
  | .jobj fs => !fs.isEmpty

/-- Python `x or default` on values. -/
def orDefault (v d : JVal) : JVal := if truthy v then v else d

/-- Python `dict.get(key)` returning None when absent would be `getKey`;
this version distinguishes absence, for `dict.get(key, default)` call sites. -/
def lookupOpt : List (String × JVal) → String → Option JVal
  | [], _ => none
  | (k, v) :: rest, key => if k == key then v else lookupOpt rest key

/-- Python `dict.get(key)` (default None). -/
def getKey (fs : List (String × JVal)) (key : String) : JVal :=
  (lookupOpt fs key).getD .jnull

/-- Whitespace characters stripped by Python str.strip() and int(); ASCII
whitespace plus the ideographic space U+3000 (the subset relevant here). -/
def isWs (c : Char) : Bool :=
  c == ' ' || c == '\t' || c == '\n' || c == '\x0d' || c == '\x0b' || c == '\x0c' ||
  c == '　'

def trimWsList (cs : List Char) : List Char :=
  ((cs.dropWhile isWs).reverse.dropWhile isWs).reverse

/-- Python str.strip(). -/
def pyStrip (s : String) : String := String.mk (trimWsList s.data)

/-- ASCII uppercase, as Python str.upper() on the ASCII/Japanese strings used here. -/
def upChar (c : Char) : Char :=
  if 97 ≤ c.toNat ∧ c.toNat ≤ 122 then Char.ofNat (c.toNat - 32) else c

def asciiUpper (s : String) : String := String.mk (s.data.map upChar)

def isDigitCh (c : Char) : Bool := 48 ≤ c.toNat && c.toNat ≤ 57

def digitsVal (cs : List Char) : Nat :=
  cs.foldl (fun acc c => acc * 10 + (c.toNat - 48)) 0

/-- Python `int(s)` on a string: optional surrounding whitespace, optional sign,
a nonempty digit run; everything else raises ValueError (`none`). -/
def pyIntOfString (s : String) : Option Int :=
  match trimWsList s.data with
  | '-' :: ds => if !ds.isEmpty && ds.all isDigitCh then some (-(digitsVal ds : Int)) else none
  | '+' :: ds => if !ds.isEmpty && ds.all isDigitCh then some (digitsVal ds : Int) else none
  | ds => if !ds.isEmpty && ds.all isDigitCh then some (digitsVal ds : Int) else none

/-- Python `int(x)`: ints and bools coerce, strings parse (ValueError on
failure), everything else raises TypeError. -/
def pyInt : JVal → Except String Int
  | .jnum n => .ok n
  | .jbool b => .ok (if b then 1 else 0)
  | .jstr s =>
      match pyIntOfString s with
      | some n => .ok n
      | none => .error "ValueError"
  | _ => .error "TypeError"

mutual

/-- Python repr() of a value (quote escaping inside strings is not modelled;
only nonemptiness of the result matters to the verified properties). -/
def pyRepr : JVal → String
  | .jnull => "None"
  | .jbool b => if b then "True" else "False"
  | .jnum n => toString n
  | .jstr s => "\x27" ++ s ++ "\x27"
  | .jarr xs => "[" ++ pyReprItems xs ++ "]"
  | .jobj fs => "\x7b" ++ pyReprFields fs ++ "\x7d"

def pyReprItems : List JVal → String
  | [] => ""
  | [x] => pyRepr x
  | x :: y :: xs => pyRepr x ++ ", " ++ pyReprItems (y :: xs)

def pyReprFields : List (String × JVal) → String
  | [] => ""
  | [(k, v)] => "\x27" ++ k ++ "\x27: " ++ pyRepr v
  | (k, v) :: y :: fs => "\x27" ++ k ++ "\x27: " ++ pyRepr v ++ ", " ++ pyReprFields (y :: fs)

end

/-- Python str() of a value. -/
def pyStr : JVal → String
  | .jnull => "None"
  | .jbool b => if b then "True" else "False"
  | .jnum n => toString n
  | .jstr s => s
  | .jarr xs => "[" ++ pyReprItems xs ++ "]"
  | .jobj fs => "\x7b" ++ pyReprFields fs ++ "\x7d"

/-- Python `list(x)`: lists stay, strings become their characters, dicts their
keys; other values raise TypeError. -/
def pyList : JVal → Except String (List JVal)
  | .jarr xs => .ok xs
  | .jstr s => .ok (s.data.map (fun ch => .jstr (String.mk [ch])))
  | .jobj fs => .ok (fs.map (fun kv => .jstr kv.1))
  | _ => .error "TypeError"

-- ===================================================================
-- Substring and regex-fragment search on text
-- ===================================================================

def startsWithL : List Char → List Char → Bool
  | [], _ => true
  | _ :: _, [] => false
  | a :: as, b :: bs => a == b && startsWithL as bs

def containsList (hay needle : List Char) : Bool :=
  match hay with
  | [] => needle.isEmpty
  | _ :: rest => startsWithL needle hay || containsList rest needle

/-- Python `sub in hay` substring test. -/
def containsStr (hay sub : String) : Bool := containsList hay.data sub.data

def containsAny (hay : String) (subs : List String) : Bool :=
  subs.any (fun s => containsStr hay s)

/-- After a group-1 match, scan for a group-2 alternative with only
non-newline characters in between (Python `.` does not match a newline). -/
def scanSecond (bs : List (List Char)) : List Char → Bool
  | [] => false
  | c :: rest =>
      bs.any (fun b => startsWithL b (c :: rest)) ||
      (!(c == '\n') && scanSecond bs rest)

/-- re.search of a pattern of the shape `(a1|a2).*(b1|b2)` (no DOTALL): some
alternative of `as`, then a newline-free gap, then some alternative of `bs`. -/
def seqMatch (as bs : List (List Char)) : List Char → Bool
  | [] => false
  | c :: rest =>
      as.any (fun a => startsWithL a (c :: rest) && scanSecond bs ((c :: rest).drop a.length)) ||
      seqMatch as bs rest

def seqMatchStr (text : String) (as bs : List String) : Bool :=
  seqMatch (as.map String.data) (bs.map String.data) text.data

-- ===================================================================
-- Deviation detectors (src/backend/llm.py)
-- ===================================================================

/-- The fixed choice phrase CHOICE_PHRASE (llm.py line 34). -/
def CHOICE_PHRASE : String := "無理のない範囲で、どれを選ぶかはあなたが決めて構いません。"

/-- MANDATORY_HIGH_COMMAND_PHRASES (llm.py line 39). -/
def MANDATORY_HIGH_COMMAND_PHRASES : List String :=
  ["してください", "やろう", "始めよう", "進めよう", "やってみよう"]

/-- MANDATORY_LOW_SUGGESTION_PATTERNS (llm.py lines 40-44). -/
def MANDATORY_LOW_SUGGESTION_PATTERNS : List String :=
  ["してみる", "するのはどうでしょう", "するのも一つの手です"]

/-- IMPLICIT_CHOICE_LEAK_PATTERNS (llm.py lines 45-53): the five compiled
regexes. The third and fourth have only optional material after the first
group, so they match exactly when a first-group alternative occurs. -/
def implicitChoiceLeak (text : String) : Bool :=
  seqMatchStr text ["あなた", "自分"] ["選", "決"] ||
  seqMatchStr text ["自由に", "好きに"] ["選", "決", "調整"] ||
  containsAny text ["どれでも", "どちらでも", "いずれでも"] ||
  containsAny text ["選んで", "選択して"] ||
  seqMatchStr text ["無理のない範囲で"] ["調整", "決め", "選"]

/-- Function `_strict_style_flags` (llm.py lines 56-65); called with the
enum value strings. -/
def strict_style_flags (output_text : String) (directiveness choice_framing : String) :
    List String :=
  (if directiveness == "HIGH" &&
      !(MANDATORY_HIGH_COMMAND_PHRASES.any (fun p => containsStr output_text p)) then
    ["STRICT_HIGH_MISSING_COMMAND_PHRASE"] else []) ++
  (if directiveness == "LOW" &&
      !(MANDATORY_LOW_SUGGESTION_PATTERNS.any (fun p => containsStr output_text p)) then
    ["STRICT_LOW_MISSING_SUGGESTION_PATTERN"] else []) ++
  (if choice_framing == "ABSENT" && implicitChoiceLeak output_text then
    ["STRICT_ABSENT_CHOICE_LEAK"] else [])

/-- Alternatives of the _IMPERATIVE_PATTERNS regexes (llm.py lines 69-73);
each regex is an alternation of fixed substrings (the `〜?` prefix of the last
alternative is optional, so the bare substring decides the match). -/
def IMPERATIVE_SUBSTRINGS : List String :=
  ["必ず", "絶対に", "今すぐ", "しなさい", "しろ", "せよ",
   "しなければならない", "しなければなりません", "ねばならない"]

/-- Alternatives of the inline CHOICE_META_LEAK regex (llm.py line 99). -/
def BASIC_META_LEAK : List String :=
  ["どれでもよい", "どれでもOK", "あなたが決めて", "選ばないという選択", "自由に選"]

/-- Function `_detect_deviation` (llm.py lines 76-102). The Python loop
appends FORBIDDEN_IMPERATIVE once and breaks, hence the single flag. -/
def detect_deviation (text : String) (directiveness : Directiveness)
    (choice_framing : ChoiceFraming) : List String :=
  (if directiveness == .LOW && containsAny text IMPERATIVE_SUBSTRINGS then
    ["FORBIDDEN_IMPERATIVE"] else []) ++
  (match choice_framing with
   | .PRESENT => if !containsStr text CHOICE_PHRASE then ["MISSING_CHOICE_PHRASE"] else []
   | .ABSENT =>
      (if containsStr text CHOICE_PHRASE then ["FORBIDDEN_CHOICE_PHRASE"] else []) ++
      (if containsAny text BASIC_META_LEAK then ["CHOICE_META_LEAK"] else []))

/-- The stripped option id `str(opt.get("id") or "").strip()` of
`_detect_content_mismatch` (llm.py line 126). -/
def optionIdOf (fs : List (String × JVal)) : String :=
  pyStrip (pyStr (orDefault (getKey fs "id") (.jstr "")))

/-- The stripped action string `str(opt.get("action") or "").strip()`
(llm.py line 127). -/
def actionStrOf (fs : List (String × JVal)) : String :=
  pyStrip (pyStr (orDefault (getKey fs "action") (.jstr "")))

/-- The `oid or "UNK"` token used in flag names. -/
def oidUOf (fs : List (String × JVal)) : String :=
  if optionIdOf fs == "" then "UNK" else optionIdOf fs

/-- The `for i, st in enumerate(steps)` loop (llm.py lines 144-147), with i
already shifted to the 1-based index used in the flag name. -/
def stepMismatchFlags (text oidU : String) (i : Nat) : List JVal → List String
  | [] => []
  | st :: rest =>
      (if pyStrip (pyStr st) != "" && !containsStr text (pyStrip (pyStr st)) then
        ["CONTENT_MISSING_STEP_" ++ oidU ++ "_" ++ toString i] else []) ++
      stepMismatchFlags text oidU (i + 1) rest

/-- Flags of one option dict inside `_detect_content_mismatch`
(llm.py lines 123-149). -/
def optionMismatchFlags (text : String) (fs : List (String × JVal)) : List String :=
  (if optionIdOf fs != "" && !containsStr text (optionIdOf fs ++ ")") then
    ["CONTENT_MISSING_OPTION_" ++ optionIdOf fs] else []) ++
  (if actionStrOf fs != "" && !containsStr text (actionStrOf fs) then
    ["CONTENT_MISSING_ACTION_" ++ oidUOf fs] else []) ++
  (match pyInt (getKey fs "duration_min") with
   | .ok d =>
      if !containsStr text (toString d ++ "分") then
        ["CONTENT_MISSING_DURATION_" ++ oidUOf fs] else []
   | .error _ => ["CONTENT_BAD_DURATION_" ++ oidUOf fs]) ++
  (match orDefault (getKey fs "steps") (.jarr []) with
   | .jarr xs => stepMismatchFlags text (oidUOf fs) 1 xs
   | _ => ["CONTENT_STEPS_NOT_LIST_" ++ oidUOf fs])

/-- Loop body of `_detect_content_mismatch` over the options list: non-dict
entries are skipped (`continue`). -/
def optionsMismatchLoop (text : String) : List JVal → List String
  | [] => []
  | o :: rest =>
      (match o with
       | .jobj fs => optionMismatchFlags text fs
       | _ => []) ++ optionsMismatchLoop text rest

/-- Function `_detect_content_mismatch` (llm.py lines 106-151); the plan is a
dict. `plan.get("options") or []` makes a falsy value an empty list, and a
truthy non-list yields the single CONTENT_PLAN_OPTIONS_NOT_LIST flag. -/
def detect_content_mismatch (plan : List (String × JVal)) (text : String) : List String :=
  match orDefault (getKey plan "options") (.jarr []) with
  | .jarr os => optionsMismatchLoop text os
  | _ => ["CONTENT_PLAN_OPTIONS_NOT_LIST"]

/-- Union of flags computed for one attempt inside `render_instruction`
(llm.py lines 338-346): deviation flags, then content-fidelity flags, then
strict style flags, in extension order. -/
def attemptFlags (plan : List (String × JVal)) (d : Directiveness)
    (c : ChoiceFraming) (text : String) : List String :=
  detect_deviation text d c ++ detect_content_mismatch plan text ++
  strict_style_flags text d.value c.value

-- ===================================================================
-- Rerender controller: render_instruction (llm.py lines 305-365)
-- ===================================================================

/-- One pass of the `for attempt in range(max_rerender + 1)` loop. The backend
round trip is modelled by `bk`, a function from the attempt number to the text
the model returned (the growing message history only feeds the backend, so it
is absorbed into `bk`). `rc` is `rerender_count`: it is incremented after every
attempt whose flags are nonempty, including the final one. -/
def render_loop (det : String → List String) (bk : Nat → String) :
    Nat → Nat → Nat → String → List String → String × List String × Nat
  | 0, _, rc, lt, lf => (lt, lf, rc)
  | fuel + 1, attempt, rc, _, _ =>
      let text := bk attempt
      let flags := det text
      if flags.isEmpty then (text, flags, rc)
      else render_loop det bk fuel (attempt + 1) (rc + 1) text flags

/-- Function `render_instruction` (llm.py lines 305-365), returning
(output_text, deviation_flags, rerender_count); the prompt transcript string
is omitted from the model. -/
def render_instruction (bk : Nat → String) (content_plan : List (String × JVal))
    (directiveness : Directiveness) (choice_framing : ChoiceFraming)
    (max_rerender : Nat := 2) : String × List String × Nat :=
  render_loop (fun t => attemptFlags content_plan directiveness choice_framing t)
    bk (max_rerender + 1) 0 0 "" []

-- ===================================================================
-- Content planner: generate_content_plan (llm.py lines 167-270)
-- ===================================================================

/-- A normalized option as built by the `fixed` loop of generate_content_plan
(llm.py lines 253-264); Python keeps the step entries as arbitrary values. -/
structure PlanOption where
  id : String
  action : String
  duration_min : Int
  steps : List JVal
  reason : String

/-- The normalized plan; Python mutates the original dict, of which the keys
goal, context and options decide every verified property. -/
structure Plan where
  goal : String
  context : String
  options : List PlanOption

/-- The hardcoded fallback options used when the backend output is not valid
JSON (llm.py lines 207-233). -/
def fallbackOptions : List JVal :=
  [.jobj [("id", .jstr "A"),
          ("action", .jstr "目標に向けた短い作業をする"),
          ("duration_min", .jnum 10),
          ("steps", .jarr [.jstr "開始準備をする", .jstr "10分だけ取り組む"]),
          ("reason", .jstr "短時間でも進捗につながるため")],
   .jobj [("id", .jstr "B"),
          ("action", .jstr "作業量を小さくして続ける"),
          ("duration_min", .jnum 5),
          ("steps", .jarr [.jstr "一番小さい単位を決める", .jstr "5分だけやる"]),
          ("reason", .jstr "負担を下げて継続しやすくするため")],
   .jobj [("id", .jstr "C"),
          ("action", .jstr "次にやることを決めて終える"),
          ("duration_min", .jnum 3),
          ("steps", .jarr [.jstr "次の一手を書く", .jstr "必要な道具を用意する"]),
          ("reason", .jstr "再開コストを下げるため")]]

/-- The `v if isinstance(v, dict) else dict()` coercion used when normalizing
the options container (llm.py lines 241 and 250). -/
def toDict : JVal → List (String × JVal)
  | .jobj fs => fs
  | _ => []

/-- Python `a <= b` under `_sort_key` (llm.py lines 243-247): keys that parse
as ints sort first by value, the rest by string order (code-point
lexicographic). -/
def sortKeyLE (a b : String) : Bool :=
  match pyIntOfString a, pyIntOfString b with
  | some x, some y => x ≤ y
  | some _, none => true
  | none, some _ => false
  | none, none => lexLe a.data b.data
where
  lexLe : List Char → List Char → Bool
    | [], _ => true
    | _ :: _, [] => false
    | a :: as, b :: bs => Nat.blt a.toNat b.toNat || (a == b && lexLe as bs)

/-- Stable insertion used to model Python sorted (stable sort). -/
def insertLe (x : String) : List String → List String
  | [] => [x]
  | y :: ys => if sortKeyLE y x then y :: insertLe x ys else x :: y :: ys

def sortKeys (ks : List String) : List String :=
  ks.foldl (fun acc k => insertLe k acc) []

/-- One slot of the `fixed` loop (llm.py lines 253-264), field expressions in
Python evaluation order: the int() coercion of duration_min and the list()
coercion of steps can raise. -/
def buildOption (k : String) (src : List (String × JVal)) : Except String PlanOption :=
  let action := pyStr (orDefault (getKey src "action") (.jstr "短い作業をする"))
  let reason := pyStr (orDefault (getKey src "reason") (.jstr "負担を増やさず進めるため"))
  match pyInt (orDefault (getKey src "duration_min") (.jnum 10)) with
  | .error e => .error e
  | .ok d =>
      match pyList (orDefault (getKey src "steps")
          (.jarr [.jstr "開始する", .jstr "短時間だけ進める"])) with
      | .error e => .error e
      | .ok steps0 =>
          .ok { id := k, action := action, duration_min := d,
                steps := steps0.take 3, reason := reason }

/-- The options-container normalization (llm.py lines 236-251): a list keeps
its dict entries, a dict is read in sorted key order, anything else yields no
options. -/
def normalizeOptions (fs : List (String × JVal)) : List (List (String × JVal)) :=
  match orDefault (getKey fs "options") (.jarr []) with
  | .jarr os => os.map toDict
  | .jobj ofs => (sortKeys (ofs.map Prod.fst)).map (fun k => toDict (getKey ofs k))
  | _ => []

/-- The `fixed` loop and the final key overwrites (llm.py lines 253-267):
slots A, B, C are built in order (`options[i] if i < len(options) else dict()`)
and goal/context are set from the arguments. -/
def assemblePlan (goal context_text : String)
    (options : List (List (String × JVal))) : Except String Plan :=
  match buildOption "A" (options.getD 0 []) with
  | .error e => .error e
  | .ok oA =>
      match buildOption "B" (options.getD 1 []) with
      | .error e => .error e
      | .ok oB =>
          match buildOption "C" (options.getD 2 []) with
          | .error e => .error e
          | .ok oC => .ok { goal := goal, context := context_text,
                            options := [oA, oB, oC] }

/-- Function `generate_content_plan` (llm.py lines 167-270). The backend round
trip is abstracted to its parsed output: `raw = some v` is a successfully
json-parsed response, `raw = none` is a json.JSONDecodeError, answered by the
hardcoded fallback plan. A non-dict parse makes `plan.get` raise
AttributeError. The prompt JSON string returned by the Python function is
omitted from the model. -/
def generate_content_plan (goal context_text : String) (raw : Option JVal) :
    Except String Plan :=
  let plan0 : JVal :=
    match raw with
    | some v => v
    | none => .jobj [("goal", .jstr goal), ("context", .jstr context_text),
                     ("options", .jarr fallbackOptions)]
  match plan0 with
  | .jobj fs => assemblePlan goal context_text (normalizeOptions fs)
  | _ => .error "AttributeError"

-- ===================================================================
-- Condition sequencer (src/backend/repo.py) and session records
-- ===================================================================

/-- The columns of an ExperimentSession row that the sequencer reads
(src/backend/models.py). `condition_order_json` models the stored JSON string
by its parse outcome: `none` is a falsy value (NULL or empty string),
`some none` is a truthy string that json.loads rejects, `some (some v)` a
truthy string parsing to `v`. `condition_index` and `design_mode` are nullable
columns. -/
structure SessionRec where
  directiveness : Directiveness
  choice_framing : ChoiceFraming
  design_mode : Option String
  condition_order_json : Option (Option JVal)
  condition_index : Option Int

/-- Python `(getattr(es, "design_mode", "BETWEEN") or "BETWEEN")`. -/
def defaultBetween : Option String → String
  | none => "BETWEEN"
  | some s => if s.data.isEmpty then "BETWEEN" else s

/-- Python `int(getattr(es, "condition_index", 0) or 0)`. -/
def rawIdx (es : SessionRec) : Int := es.condition_index.getD 0

/-- The `if idx < 0: idx = 0` clamp of get_current_condition (repo.py 312-313). -/
def clampIdx (es : SessionRec) : Int :=
  let i := rawIdx es
  if i < 0 then 0 else i

/-- `str(cond.get("directiveness", es.directiveness)).upper()` (repo.py 317):
a missing key falls back to the enum object, whose str() is
"Directiveness.HIGH" and never parses back, so the fallback path is taken. -/
def condDirStr (fs : List (String × JVal)) (es : SessionRec) : String :=
  asciiUpper (match lookupOpt fs "directiveness" with
    | some v => pyStr v
    | none => "Directiveness." ++ es.directiveness.value)

def condCfStr (fs : List (String × JVal)) (es : SessionRec) : String :=
  asciiUpper (match lookupOpt fs "choice_framing" with
    | some v => pyStr v
    | none => "ChoiceFraming." ++ es.choice_framing.value)

/-- `order[show_idx] or dict()` with `show_idx = idx if idx < total else
total - 1` (repo.py 315-316). -/
def selectedCond (es : SessionRec) (os : List JVal) : JVal :=
  let idx := clampIdx es
  let show_idx := if idx < (os.length : Int) then idx.toNat else os.length - 1
  orDefault (os.getD show_idx .jnull) (.jobj [])

/-- The try block of get_current_condition (repo.py 307-319): `none` models
every way the block ends without returning (an exception swallowed by
`except Exception: pass`, or a parsed value that is not a nonempty list, which
simply falls through). -/
def tryCurrent (es : SessionRec) (v : JVal) :
    Option (Directiveness × ChoiceFraming × Nat × Nat) :=
  match orDefault v (.jarr []) with
  | .jarr os =>
      if os.isEmpty then none
      else
        match selectedCond es os with
        | .jobj fs =>
            match Directiveness.ofString (condDirStr fs es),
                  ChoiceFraming.ofString (condCfStr fs es) with
            | some d, some c => some (d, c, min (clampIdx es).toNat os.length, os.length)
            | _, _ => none
        | _ => none
  | _ => none

/-- Function `get_current_condition` (repo.py lines 299-324). -/
def get_current_condition (es : SessionRec) :
    Directiveness × ChoiceFraming × Nat × Nat :=
  match es.condition_order_json with
  | some (some v) =>
      match tryCurrent es v with
      | some r => r
      | none => (es.directiveness, es.choice_framing, 0, 1)
  | _ => (es.directiveness, es.choice_framing, 0, 1)

/-- The legacy fallback of get_within_total (repo.py lines 346-356): re-parse
`condition_order_json or "[]"` and return its length when it is a nonempty
list, else 4 for WITHIN mode, else 1. -/
def legacyTotal (es : SessionRec) : Nat :=
  if asciiUpper (defaultBetween es.design_mode) == "WITHIN" then
    match es.condition_order_json with
    | some (some v) =>
        match orDefault v (.jarr []) with
        | .jarr os => if !os.isEmpty then os.length else 4
        | _ => 4
    | _ => 4
  else 1

/-- Function `get_within_total` (repo.py lines 326-356). -/
def get_within_total (es : SessionRec) : Nat :=
  match es.condition_order_json with
  | some (some v) =>
      match orDefault v (.jarr []) with
      | .jarr os => if !os.isEmpty then os.length else legacyTotal es
      | _ => legacyTotal es
  | _ => legacyTotal es

/-- Function `within_is_complete` (repo.py lines 358-367). -/
def within_is_complete (es : SessionRec) : Bool :=
  let total := get_within_total es
  if total == 0 then false
  else decide ((total : Int) ≤ rawIdx es)

/-- Function `advance_condition` (repo.py lines 369-390), as the pure update it
performs on the session row: without a stored condition sequence the row is
returned unchanged; otherwise the index advances by one, capped at total. -/
def advance_condition (es : SessionRec) : SessionRec :=
  match es.condition_order_json with
  | none => es
  | some _ =>
      let total := get_within_total es
      let next : Int := rawIdx es + 1
      let next : Int := if 0 < total ∧ (total : Int) < next then (total : Int) else next
      { es with condition_index := some next }

-- ===================================================================
-- Session start (src/backend/app.py)
-- ===================================================================

/-- Function `_resolve_directiveness` (app.py lines 66-69); random.choice is
modelled by the coin argument. An unsupported non-AUTO string raises
ValueError from the enum constructor. -/
def resolve_directiveness (d_in : String) (coin : Bool) : Except String Directiveness :=
  if d_in == "AUTO" then .ok (if coin then .HIGH else .LOW)
  else
    match Directiveness.ofString d_in with
    | some d => .ok d
    | none => .error "ValueError"

/-- A condition pair as stored in the within-subject order. -/
structure ConditionPair where
  d : Directiveness
  c : ChoiceFraming
deriving DecidableEq, Repr

/-- The `conds` list built by start_session for mode WITHIN
(app.py lines 103-108), before the shuffle. -/
def withinConds : List ConditionPair :=
  [⟨.HIGH, .PRESENT⟩, ⟨.HIGH, .ABSENT⟩, ⟨.LOW, .PRESENT⟩, ⟨.LOW, .ABSENT⟩]

/-- The JSON entry stored for one pair in condition_order_json (app.py 104-111). -/
def condToJVal (p : ConditionPair) : JVal :=
  .jobj [("directiveness", .jstr p.d.value), ("choice_framing", .jstr p.c.value)]

-- ===================================================================
-- Derived views and concrete inputs used by the verification
-- ===================================================================

/-- The option entries a plan dict exposes to `_detect_content_mismatch`
(after `plan.get("options") or []`); empty when the container is not a list. -/
def optionDicts (plan : List (String × JVal)) : List JVal :=
  match orDefault (getKey plan "options") (.jarr []) with
  | .jarr os => os
  | _ => []

/-- The step entries of one option dict (after `opt.get("steps") or []`);
empty when the container is not a list. -/
def stepsOf (fs : List (String × JVal)) : List JVal :=
  match orDefault (getKey fs "steps") (.jarr []) with
  | .jarr xs => xs
  | _ => []

/-- n-fold application of advance_condition. -/
def advanceN : Nat → SessionRec → SessionRec
  | 0, es => es
  | n + 1, es => advance_condition (advanceN n es)

/-- A within-subject session as start_session stores it: the given pairs as
condition_order_json and condition_index 0 (app.py lines 101-131). -/
def mkSeqSession (ps : List ConditionPair) : SessionRec :=
  { directiveness := .HIGH, choice_framing := .PRESENT, design_mode := some "WITHIN",
    condition_order_json := some (some (.jarr (ps.map condToJVal))),
    condition_index := some 0 }

/-- The plan dict of the hardcoded fallback plan, as a rendered turn sees it. -/
def fbPlanObj (g c : String) : List (String × JVal) :=
  [("goal", .jstr g), ("context", .jstr c), ("options", .jarr fallbackOptions)]

/-- The fields of fallback option A. -/
def c8fsA : List (String × JVal) :=
  [("id", .jstr "A"),
   ("action", .jstr "目標に向けた短い作業をする"),
   ("duration_min", .jnum 10),
   ("steps", .jarr [.jstr "開始準備をする", .jstr "10分だけ取り組む"]),
   ("reason", .jstr "短時間でも進捗につながるため")]

/-- A rendering of the fallback plan under (HIGH, ABSENT) that triggers no
deviation flag: it reproduces ids, actions, durations and steps verbatim,
contains the command cue 始めよう, and avoids every leak pattern. -/
def cleanTextHA : String :=
  "まず始めよう。\nA) 目標に向けた短い作業をする（10分）：開始準備をする→10分だけ取り組む\nB) 作業量を小さくして続ける（5分）：一番小さい単位を決める→5分だけやる\nC) 次にやることを決めて終える（3分）：次の一手を書く→必要な道具を用意する"

/-- A backend output that is a perfectly valid JSON object but whose
duration_min does not coerce to int. -/
def c2FailingOutput : JVal :=
  .jobj [("options", .jarr [.jobj [("duration_min", .jstr "x")]])]

/-- A backend output with a negative integer duration. -/
def c3FailingOutput : JVal :=
  .jobj [("options", .jarr [.jobj [("duration_min", .jnum (-5))]])]

/-- The option every empty slot of the `fixed` loop produces. -/
def defaultSlot (k : String) : PlanOption :=
  { id := k, action := "短い作業をする", duration_min := 10,
    steps := [.jstr "開始する", .jstr "短時間だけ進める"],
    reason := "負担を増やさず進めるため" }

/-- The plan generate_content_plan returns for an empty backend object. -/
def c3WitnessPlan : Plan :=
  { goal := "ウォーキングを習慣にする", context := "朝は忙しい",
    options := [defaultSlot "A", defaultSlot "B", defaultSlot "C"] }

/-- The plan generate_content_plan returns when the backend returns only a
goal key of its own, which the function overwrites. -/
def c9WitnessPlan : Plan :=
  { goal := "目標G", context := "文脈C",
    options := [defaultSlot "A", defaultSlot "B", defaultSlot "C"] }

/-- A plan option whose action carries a trailing space. -/
def c8cexOptA : List (String × JVal) :=
  [("id", .jstr "A"), ("action", .jstr "歩く "), ("duration_min", .jnum 5),
   ("steps", .jarr [.jstr "靴"])]

def c8cexPlan : List (String × JVal) :=
  [("options", .jarr [.jobj c8cexOptA])]

/-- A zero-flag rendering of c8cexPlan under (HIGH, PRESENT) that contains the
stripped action 歩く but never the raw action with its trailing space. -/
def c8cexText : String :=
  "してください。A) 歩く（5分）：靴。無理のない範囲で、どれを選ぶかはあなたが決めて構いません。"

/-- A stored condition entry carrying an unsupported directiveness value. -/
def c4cexEntry : List (String × JVal) :=
  [("directiveness", .jstr "MEDIUM"), ("choice_framing", .jstr "ABSENT")]

def c4cexSession : SessionRec :=
  { directiveness := .HIGH, choice_framing := .PRESENT, design_mode := some "WITHIN",
    condition_order_json := some (some (.jarr [.jobj c4cexEntry])),
    condition_index := some 0 }

def c4WitnessEntry : List (String × JVal) :=
  [("directiveness", .jstr "MEDIUM"), ("choice_framing", .jstr "PRESENT")]

def c4WitnessSession : SessionRec :=
  { directiveness := .LOW, choice_framing := .ABSENT, design_mode := some "WITHIN",
    condition_order_json := some (some (.jarr [.jobj c4WitnessEntry])),
    condition_index := some 0 }

/-- One concrete shuffle outcome of the four within-subject conditions. -/
def c6WitnessOrder : List ConditionPair :=
  [⟨.LOW, .ABSENT⟩, ⟨.HIGH, .PRESENT⟩, ⟨.LOW, .PRESENT⟩, ⟨.HIGH, .ABSENT⟩]

/-- A session without a stored condition sequence. -/
def c10WitnessSession : SessionRec :=
  { directiveness := .HIGH, choice_framing := .ABSENT, design_mode := some "BETWEEN",
    condition_order_json := none, condition_index := some 0 }

-- ===================================================================
-- Theorems
-- ===================================================================

/-- Loop invariant of render_instruction: the returned rerender_count grows by
at most the remaining fuel, and on return either the flags are empty or every
remaining attempt was consumed (each incrementing the count). -/
theorem render_loop_spec (det : String → List String) (bk : Nat → String) :
    ∀ (fuel attempt rc : Nat) (lt : String) (lf : List String),
      (render_loop det bk fuel attempt rc lt lf).2.2 ≤ rc + fuel ∧
      ((render_loop det bk fuel attempt rc lt lf).2.1 = [] ∨
       (render_loop det bk fuel attempt rc lt lf).2.2 = rc + fuel) := by
  intro fuel
  induction fuel with
  | zero => intro attempt rc lt lf; exact ⟨Nat.le_refl _, Or.inr rfl⟩
  | succ n ih =>
      intro attempt rc lt lf
      simp only [render_loop]
      cases hfl : det (bk attempt) with
      | nil =>
          simp only [hfl, List.isEmpty_nil, if_true]
          exact ⟨Nat.le_add_right rc (n + 1), Or.inl (by simp)⟩
      | cons f fs =>
          simp only [hfl, List.isEmpty_cons, if_false, Bool.false_eq_true]
          have h := ih (attempt + 1) (rc + 1) (bk attempt) (f :: fs)
          have harith : rc + 1 + n = rc + (n + 1) := by omega
          rw [harith] at h
          exact h

/-- C1. The claim bounds rerender_count by max_rerender; the code increments
rerender_count after every flagged attempt, including the last of the
max_rerender + 1 attempts, so the bound is max_rerender + 1, reached exactly
when the final attempt still carries flags; otherwise the loop stopped with an
empty flag set. -/
theorem c1_rerender_budget (bk : Nat → String) (content_plan : List (String × JVal))
    (d : Directiveness) (c : ChoiceFraming) (max_rerender : Nat) :
    (render_instruction bk content_plan d c max_rerender).2.2 ≤ max_rerender + 1 ∧
    ((render_instruction bk content_plan d c max_rerender).2.1 = [] ∨
     (render_instruction bk content_plan d c max_rerender).2.2 = max_rerender + 1) := by
  have h := render_loop_spec (fun t => attemptFlags content_plan d c t) bk
    (max_rerender + 1) 0 0 "" []
  simpa [render_instruction] using h

/-- C1 counterexample: with a backend that always answers the empty string and
the default budget max_rerender = 2, render_instruction returns
rerender_count = 3, exceeding the claimed bound max_rerender = 2. -/
theorem c1_counterexample_budget_exceeded :
    (render_instruction (fun _ => "") [] .HIGH .PRESENT 2).2.2 = 3 ∧
    ¬ (render_instruction (fun _ => "") [] .HIGH .PRESENT 2).2.2 ≤ 2 := by
  constructor
  · rfl
  · decide

/-- C2. generate_content_plan is claimed never to raise, but on the valid JSON
object with options = [ dict(duration_min = "x") ] the Python expression
int(src.get("duration_min") or 10) raises ValueError instead of defaulting
to 10, modelled here by the error result. -/
theorem c2_duration_coercion_raises :
    generate_content_plan "今日の目標" "文脈" (some c2FailingOutput) =
      .error "ValueError" := rfl

/-- C10. advance_condition on a session without a stored condition sequence
(condition_order_json NULL or empty) returns the row unchanged. -/
theorem c10_advance_no_order_noop (es : SessionRec)
    (h : es.condition_order_json = none) : advance_condition es = es := by
  unfold advance_condition
  rw [h]

/-- C10 witness at a concrete session row. -/
theorem c10_advance_no_order_witness :
    advance_condition c10WitnessSession = c10WitnessSession :=
  c10_advance_no_order_noop c10WitnessSession rfl

/-- C5. For a freshly initialized 4-condition session (index 0), four
advance() calls complete the session; a fifth advance leaves the index at 4;
and get_current_condition in the completed state returns the pair stored at
index 3 together with (index, total) = (4, 4), accessing only index 3 of the
sequence. -/
theorem c5_sequencer_scenario (p0 p1 p2 p3 : ConditionPair) :
    within_is_complete (mkSeqSession [p0, p1, p2, p3]) = false ∧
    within_is_complete (advanceN 4 (mkSeqSession [p0, p1, p2, p3])) = true ∧
    (advanceN 4 (mkSeqSession [p0, p1, p2, p3])).condition_index = some 4 ∧
    (advanceN 5 (mkSeqSession [p0, p1, p2, p3])).condition_index = some 4 ∧
    get_current_condition (advanceN 4 (mkSeqSession [p0, p1, p2, p3])) =
      (p3.d, p3.c, 4, 4) := by
  obtain ⟨d3, c3⟩ := p3
  cases d3 <;> cases c3 <;> exact ⟨rfl, rfl, rfl, rfl, rfl⟩

/-- C6. The stored within-subject condition sequence is the shuffle of the
fixed list [HIGH/PRESENT, HIGH/ABSENT, LOW/PRESENT, LOW/ABSENT] built by
start_session; random.shuffle yields a permutation of it, and every such
permutation has exactly 4 elements and contains each of the 4 distinct pairs
exactly once. -/
theorem c6_within_order_permutation (order : List ConditionPair)
    (h : withinConds.Perm order) :
    order.length = 4 ∧ ∀ d c, order.count ⟨d, c⟩ = 1 := by
  constructor
  · rw [← h.length_eq]; rfl
  · intro d c
    rw [← h.count_eq]
    cases d <;> cases c <;> rfl

/-- C6 witness at one concrete shuffle outcome. -/
theorem c6_within_order_witness :
    c6WitnessOrder.length = 4 ∧ c6WitnessOrder.count ⟨.HIGH, .ABSENT⟩ = 1 :=
  ⟨(c6_within_order_permutation c6WitnessOrder (by decide)).1,
   (c6_within_order_permutation c6WitnessOrder (by decide)).2 .HIGH .ABSENT⟩

/-- Helper: `list(x or defaultList)` with a nonempty default is nonempty, since
every truthy value that list() accepts converts to a nonempty list. -/
theorem pyList_orDefault_ne_nil {v : JVal} {ds xs : List JVal}
    (hd : ds ≠ []) (h : pyList (orDefault v (.jarr ds)) = .ok xs) : xs ≠ [] := by
  unfold orDefault at h
  by_cases ht : truthy v = true
  · rw [if_pos ht] at h
    cases v with
    | jnull => simp [truthy] at ht
    | jbool b => cases b <;> simp [truthy, pyList] at ht h
    | jnum n => simp [pyList] at h
    | jstr s =>
        simp only [pyList, Except.ok.injEq] at h
        subst h
        simp only [truthy, Bool.not_eq_eq_eq_not, Bool.not_false] at ht
        intro hnil
        rw [List.map_eq_nil_iff] at hnil
        simp [hnil] at ht
    | jarr l =>
        simp only [pyList, Except.ok.injEq] at h
        subst h
        simp only [truthy, Bool.not_eq_eq_eq_not, Bool.not_false] at ht
        intro hnil
        simp [hnil] at ht
    | jobj fs =>
        simp only [pyList, Except.ok.injEq] at h
        subst h
        simp only [truthy, Bool.not_eq_eq_eq_not, Bool.not_false] at ht
        intro hnil
        rw [List.map_eq_nil_iff] at hnil
        simp [hnil] at ht
  · rw [if_neg ht] at h
    simp only [pyList, Except.ok.injEq] at h
    subst h
    exact hd

/-- Helper: a successfully built slot has the requested id and 1 to 3 steps. -/
theorem buildOption_ok {k : String} {src : List (String × JVal)} {o : PlanOption}
    (h : buildOption k src = .ok o) :
    o.id = k ∧ 1 ≤ o.steps.length ∧ o.steps.length ≤ 3 := by
  unfold buildOption at h
  cases hd : pyInt (orDefault (getKey src "duration_min") (.jnum 10)) with
  | error e => rw [hd] at h; exact absurd h (by simp)
  | ok d =>
      rw [hd] at h
      cases hs : pyList (orDefault (getKey src "steps")
          (.jarr [.jstr "開始する", .jstr "短時間だけ進める"])) with
      | error e => rw [hs] at h; exact absurd h (by simp)
      | ok steps0 =>
          rw [hs] at h
          simp only [Except.ok.injEq] at h
          subst h
          have hne : steps0 ≠ [] := pyList_orDefault_ne_nil (by simp) hs
          refine ⟨rfl, ?_, ?_⟩
          · cases steps0 with
            | nil => exact absurd rfl hne
            | cons a as => simp only [List.length_take, List.length_cons]; omega
          · simp only [List.length_take]
            omega

/-- Helper: the shape of every plan assemblePlan returns. -/
theorem assemblePlan_ok_shape {g c : String} {options : List (List (String × JVal))}
    {p : Plan} (h : assemblePlan g c options = .ok p) :
    p.goal = g ∧ p.context = c ∧ p.options.map PlanOption.id = ["A", "B", "C"] ∧
    ∀ o ∈ p.options, 1 ≤ o.steps.length ∧ o.steps.length ≤ 3 := by
  unfold assemblePlan at h
  cases hA : buildOption "A" (options.getD 0 []) with
  | error e => rw [hA] at h; exact absurd h (by simp)
  | ok oA =>
      rw [hA] at h
      cases hB : buildOption "B" (options.getD 1 []) with
      | error e => rw [hB] at h; exact absurd h (by simp)
      | ok oB =>
          rw [hB] at h
          cases hC : buildOption "C" (options.getD 2 []) with
          | error e => rw [hC] at h; exact absurd h (by simp)
          | ok oC =>
              rw [hC] at h
              simp only [Except.ok.injEq] at h
              subst h
              obtain ⟨hidA, hstA⟩ := buildOption_ok hA
              obtain ⟨hidB, hstB⟩ := buildOption_ok hB
              obtain ⟨hidC, hstC⟩ := buildOption_ok hC
              refine ⟨rfl, rfl, ?_, ?_⟩
              · simp [hidA, hidB, hidC]
              · intro o ho
                simp only [List.mem_cons, List.not_mem_nil, or_false] at ho
                rcases ho with rfl | rfl | rfl
                · exact hstA
                · exact hstB
                · exact hstC

/-- Helper: the shape of every plan generate_content_plan returns. -/
theorem generate_content_plan_ok_shape {g c : String} {raw : Option JVal} {p : Plan}
    (h : generate_content_plan g c raw = .ok p) :
    p.goal = g ∧ p.context = c ∧ p.options.map PlanOption.id = ["A", "B", "C"] ∧
    ∀ o ∈ p.options, 1 ≤ o.steps.length ∧ o.steps.length ≤ 3 := by
  unfold generate_content_plan at h
  cases raw with
  | none => exact assemblePlan_ok_shape h
  | some v =>
      cases v with
      | jobj fs => exact assemblePlan_ok_shape h
      | jnull => exact absurd h (by simp)
      | jbool b => exact absurd h (by simp)
      | jnum n => exact absurd h (by simp)
      | jstr s => exact absurd h (by simp)
      | jarr xs => exact absurd h (by simp)

/-- C3 amended. Every plan that generate_content_plan returns (when it returns
at all) has exactly 3 options with ids A, B, C in order, and each steps list of
length 1 to 3; durations are ints by construction but, contrary to the claim,
not necessarily positive (see the counterexample). -/
theorem c3_plan_shape (g c : String) (raw : Option JVal) (p : Plan)
    (h : generate_content_plan g c raw = .ok p) :
    p.options.map PlanOption.id = ["A", "B", "C"] ∧
    ∀ o ∈ p.options, 1 ≤ o.steps.length ∧ o.steps.length ≤ 3 :=
  ⟨(generate_content_plan_ok_shape h).2.2.1, (generate_content_plan_ok_shape h).2.2.2⟩

/-- C3 counterexample: a backend duration of -5 is kept, so the returned plan
has a non-positive duration_min, refuting the positivity part of the claim. -/
theorem c3_counterexample_negative_duration :
    (generate_content_plan "g" "c" (some c3FailingOutput)).map
      (fun p => p.options.map (fun o => o.duration_min)) = .ok [-5, 10, 10] ∧
    ¬ (0 : Int) < -5 := ⟨rfl, by decide⟩

/-- C3 witness at a concrete backend output. -/
theorem c3_plan_shape_witness :
    generate_content_plan "ウォーキングを習慣にする" "朝は忙しい" (some (.jobj [])) =
      .ok c3WitnessPlan ∧
    c3WitnessPlan.options.map PlanOption.id = ["A", "B", "C"] :=
  ⟨rfl, (c3_plan_shape "ウォーキングを習慣にする" "朝は忙しい" (some (.jobj []))
    c3WitnessPlan rfl).1⟩

/-- C9. The returned plan always carries the goal and context arguments,
overwriting whatever the backend supplied for those keys
(llm.py lines 265-266). -/
theorem c9_goal_context_overwrite (g c : String) (raw : Option JVal) (p : Plan)
    (h : generate_content_plan g c raw = .ok p) : p.goal = g ∧ p.context = c :=
  ⟨(generate_content_plan_ok_shape h).1, (generate_content_plan_ok_shape h).2.1⟩

/-- C9 witness: the backend answers its own goal key, which is overwritten. -/
theorem c9_goal_context_witness :
    generate_content_plan "目標G" "文脈C" (some (.jobj [("goal", .jstr "backend-goal")])) =
      .ok c9WitnessPlan ∧
    c9WitnessPlan.goal = "目標G" ∧ c9WitnessPlan.context = "文脈C" :=
  ⟨rfl, c9_goal_context_overwrite "目標G" "文脈C"
    (some (.jobj [("goal", .jstr "backend-goal")])) c9WitnessPlan rfl⟩

/-- Helper: the enum constructor rejects every string other than its values. -/
theorem directiveness_ofString_eq_none {s : String} (h1 : s ≠ "HIGH") (h2 : s ≠ "LOW") :
    Directiveness.ofString s = none := by
  simp [Directiveness.ofString, h1, h2]

/-- C4 amended. An unsupported directiveness string makes the resolver raise
(modelled by the error result), but get_current_condition does NOT raise: when
the selected stored entry carries a directiveness outside HIGH and LOW, the
exception is swallowed and the session default condition is silently returned
with (index, total) = (0, 1). -/
theorem c4_fallback_on_invalid_condition :
    (∀ b, resolve_directiveness "MEDIUM" b = .error "ValueError") ∧
    (∀ (es : SessionRec) (os : List JVal) (fs : List (String × JVal)),
       es.condition_order_json = some (some (.jarr os)) →
       os ≠ [] →
       selectedCond es os = .jobj fs →
       condDirStr fs es ≠ "HIGH" →
       condDirStr fs es ≠ "LOW" →
       get_current_condition es = (es.directiveness, es.choice_framing, 0, 1)) := by
  constructor
  · intro b; rfl
  · intro es os fs h1 h2 h3 h4 h5
    have htc : tryCurrent es (.jarr os) = none := by
      unfold tryCurrent
      cases os with
      | nil => exact absurd rfl h2
      | cons a as =>
          have hod : orDefault (.jarr (a :: as)) (.jarr []) = .jarr (a :: as) := rfl
          rw [hod]
          simp only [List.isEmpty_cons, if_false, Bool.false_eq_true]
          rw [h3]
          dsimp only
          rw [directiveness_ofString_eq_none h4 h5]
    unfold get_current_condition
    rw [h1]
    dsimp only
    rw [htc]

/-- C4 counterexample: the stored entry names directiveness MEDIUM, which the
enum rejects, yet get_current_condition returns the session default pair
(HIGH, PRESENT) with index 0 and total 1, without signalling any error. -/
theorem c4_counterexample_silent_substitution :
    Directiveness.ofString (condDirStr c4cexEntry c4cexSession) = none ∧
    get_current_condition c4cexSession = (.HIGH, .PRESENT, 0, 1) := ⟨rfl, rfl⟩

/-- C4 witness for the amended theorem at a concrete session. -/
theorem c4_fallback_witness :
    resolve_directiveness "MEDIUM" true = .error "ValueError" ∧
    get_current_condition c4WitnessSession = (.LOW, .ABSENT, 0, 1) :=
  ⟨c4_fallback_on_invalid_condition.1 true,
   c4_fallback_on_invalid_condition.2 c4WitnessSession [.jobj c4WitnessEntry]
     c4WitnessEntry rfl (List.cons_ne_nil _ _) rfl (by decide) (by decide)⟩

/-- C7. When the full flag set of an attempt is empty under
choice_framing = ABSENT, the text contains neither the fixed choice phrase,
nor a match of the basic agency-meta leak set of _detect_deviation, nor a
match of the broader strict-separation leak patterns of _strict_style_flags. -/
theorem c7_absent_zero_flags_clean (plan : List (String × JVal)) (d : Directiveness)
    (text : String) (h : attemptFlags plan d .ABSENT text = []) :
    containsStr text CHOICE_PHRASE = false ∧
    containsAny text BASIC_META_LEAK = false ∧
    implicitChoiceLeak text = false := by
  unfold attemptFlags at h
  obtain ⟨h1, h23⟩ := List.append_eq_nil.mp h
  obtain ⟨h2, h3⟩ := List.append_eq_nil.mp h23
  refine ⟨?_, ?_, ?_⟩
  · cases hp : containsStr text CHOICE_PHRASE with
    | false => rfl
    | true =>
        exfalso
        unfold detect_deviation at h1
        simp [hp] at h1
  · cases hb : containsAny text BASIC_META_LEAK with
    | false => rfl
    | true =>
        exfalso
        unfold detect_deviation at h1
        simp [hb] at h1
  · cases hl : implicitChoiceLeak text with
    | false => rfl
    | true =>
        exfalso
        simp [strict_style_flags, ChoiceFraming.value, hl] at h3

/-- C7 witness: a concrete zero-flag (HIGH, ABSENT) rendering of the fallback
plan, shown to contain no choice phrase and no leak-pattern match. -/
theorem c7_absent_zero_flags_witness :
    attemptFlags (fbPlanObj "散歩" "ctx") .HIGH .ABSENT cleanTextHA = [] ∧
    containsStr cleanTextHA CHOICE_PHRASE = false ∧
    containsAny cleanTextHA BASIC_META_LEAK = false ∧
    implicitChoiceLeak cleanTextHA = false :=
  ⟨by decide, c7_absent_zero_flags_clean (fbPlanObj "散歩" "ctx") .HIGH cleanTextHA
    (by decide)⟩

/-- Helper: an empty step-flag list means every non-empty stripped step string
occurs in the text. -/
theorem stepMismatchFlags_eq_nil {text oidU : String} :
    ∀ {i : Nat} {xs : List JVal},
      stepMismatchFlags text oidU i xs = [] →
      ∀ st ∈ xs, pyStrip (pyStr st) ≠ "" → containsStr text (pyStrip (pyStr st)) = true := by
  intro i xs
  induction xs generalizing i with
  | nil => intro h st hst; simp at hst
  | cons a as ih =>
      intro h st hst hne
      unfold stepMismatchFlags at h
      obtain ⟨h1, h2⟩ := List.append_eq_nil.mp h
      rcases List.mem_cons.mp hst with rfl | hmem
      · cases hc : containsStr text (pyStrip (pyStr st)) with
        | true => rfl
        | false =>
            exfalso
            have hb : (pyStrip (pyStr st) != "") = true := bne_iff_ne.mpr hne
            simp [hb, hc] at h1
      · exact ih h2 st hmem hne

/-- Helper: an empty flag list for one option dict gives the fidelity facts for
its action, duration and steps. -/
theorem optionMismatchFlags_eq_nil {text : String} {fs : List (String × JVal)}
    (h : optionMismatchFlags text fs = []) :
    (actionStrOf fs ≠ "" → containsStr text (actionStrOf fs) = true) ∧
    (∀ n, pyInt (getKey fs "duration_min") = .ok n →
       containsStr text (toString n ++ "分") = true) ∧
    (∀ st ∈ stepsOf fs, pyStrip (pyStr st) ≠ "" →
       containsStr text (pyStrip (pyStr st)) = true) := by
  unfold optionMismatchFlags at h
  obtain ⟨h123, h4⟩ := List.append_eq_nil.mp h
  obtain ⟨h12, h3⟩ := List.append_eq_nil.mp h123
  obtain ⟨h1, h2⟩ := List.append_eq_nil.mp h12
  refine ⟨?_, ?_, ?_⟩
  · intro hne
    cases hc : containsStr text (actionStrOf fs) with
    | true => rfl
    | false =>
        exfalso
        have hb : (actionStrOf fs != "") = true := bne_iff_ne.mpr hne
        simp [hb, hc] at h2
  · intro n hn
    rw [hn] at h3
    cases hc : containsStr text (toString n ++ "分") with
    | true => rfl
    | false => exfalso; simp [hc] at h3
  · intro st hst hne
    unfold stepsOf at hst
    cases hsteps : orDefault (getKey fs "steps") (.jarr []) with
    | jarr xs =>
        rw [hsteps] at h4 hst
        exact stepMismatchFlags_eq_nil h4 st hst hne
    | jnull => rw [hsteps] at hst; exact absurd hst (List.not_mem_nil _)
    | jbool b => rw [hsteps] at hst; exact absurd hst (List.not_mem_nil _)
    | jnum m => rw [hsteps] at hst; exact absurd hst (List.not_mem_nil _)
    | jstr s => rw [hsteps] at hst; exact absurd hst (List.not_mem_nil _)
    | jobj g => rw [hsteps] at hst; exact absurd hst (List.not_mem_nil _)

/-- Helper: an empty loop result means every option dict in the list has an
empty flag list. -/
theorem optionsMismatchLoop_eq_nil {text : String} :
    ∀ {os : List JVal}, optionsMismatchLoop text os = [] →
      ∀ fs : List (String × JVal), JVal.jobj fs ∈ os →
        optionMismatchFlags text fs = [] := by
  intro os
  induction os with
  | nil => intro h fs hm; exact absurd hm (List.not_mem_nil _)
  | cons o rest ih =>
      intro h fs hm
      unfold optionsMismatchLoop at h
      obtain ⟨h1, h2⟩ := List.append_eq_nil.mp h
      rcases List.mem_cons.mp hm with heq | hmem
      · cases heq; exact h1
      · exact ih h2 fs hmem

/-- C8 amended. For every render whose combined flag set is empty, the text
contains, for every option dict of the plan, the whitespace-STRIPPED action
string when non-empty, the token of the int-coerced duration_min followed by
分, and every non-empty whitespace-STRIPPED step string; the raw unstripped
strings need not occur verbatim (see the counterexample). -/
theorem c8_content_fidelity_stripped (plan : List (String × JVal)) (d : Directiveness)
    (c : ChoiceFraming) (text : String) (h : attemptFlags plan d c text = []) :
    ∀ fs : List (String × JVal), JVal.jobj fs ∈ optionDicts plan →
      (actionStrOf fs ≠ "" → containsStr text (actionStrOf fs) = true) ∧
      (∀ n, pyInt (getKey fs "duration_min") = .ok n →
         containsStr text (toString n ++ "分") = true) ∧
      (∀ st ∈ stepsOf fs, pyStrip (pyStr st) ≠ "" →
         containsStr text (pyStrip (pyStr st)) = true) := by
  intro fs hm
  unfold attemptFlags at h
  obtain ⟨h12, h3⟩ := List.append_eq_nil.mp h
  obtain ⟨h1, h2⟩ := List.append_eq_nil.mp h12
  unfold detect_content_mismatch at h2
  unfold optionDicts at hm
  cases hopt : orDefault (getKey plan "options") (.jarr []) with
  | jarr os =>
      rw [hopt] at h2 hm
      exact optionMismatchFlags_eq_nil (optionsMismatchLoop_eq_nil h2 fs hm)
  | jnull => rw [hopt] at hm; exact absurd hm (List.not_mem_nil _)
  | jbool b => rw [hopt] at hm; exact absurd hm (List.not_mem_nil _)
  | jnum m => rw [hopt] at hm; exact absurd hm (List.not_mem_nil _)
  | jstr s => rw [hopt] at hm; exact absurd hm (List.not_mem_nil _)
  | jobj g => rw [hopt] at hm; exact absurd hm (List.not_mem_nil _)

/-- C8 counterexample: a zero-flag render of a plan whose action is the
whitespace-padded 歩く followed by a space; the detector only checks the
stripped string, and the raw action string never occurs in the text. -/
theorem c8_counterexample_unstripped_action :
    attemptFlags c8cexPlan .HIGH .PRESENT c8cexText = [] ∧
    getKey c8cexOptA "action" = .jstr "歩く " ∧
    containsStr c8cexText "歩く " = false := by
  refine ⟨by decide, rfl, by decide⟩

/-- C8 witness: the fallback plan rendered as cleanTextHA carries zero flags,
and the theorem yields the verbatim containment facts for option A. -/
theorem c8_content_fidelity_witness :
    attemptFlags (fbPlanObj "散歩" "ctx") .HIGH .ABSENT cleanTextHA = [] ∧
    containsStr cleanTextHA (actionStrOf c8fsA) = true ∧
    containsStr cleanTextHA (toString (10 : Int) ++ "分") = true ∧
    containsStr cleanTextHA (pyStrip (pyStr (.jstr "開始準備をする"))) = true := by
  have h0 : attemptFlags (fbPlanObj "散歩" "ctx") .HIGH .ABSENT cleanTextHA = [] := by
    decide
  have hA := c8_content_fidelity_stripped (fbPlanObj "散歩" "ctx") .HIGH .ABSENT
    cleanTextHA h0 c8fsA (List.Mem.head _)
  exact ⟨h0, hA.1 (by decide), hA.2.1 10 rfl,
    hA.2.2 (.jstr "開始準備をする") (List.Mem.head _) (by decide)⟩
